import Mathlib

/-!
Verification of the LLM_Response_Eval core: a shallow embedding of the
structured-response extraction and metric functions of
`src/LLM_Response_Eval/evaluation_modules/`, together with theorems settling
the specification claims about them.

Modelling conventions:
* Python `float` arithmetic is modelled by exact rationals (`ℚ`); the numeric
  literals `0.8`, `0.5`, `0.1` of the source become `4/5`, `1/2`, `1/10`.
* Python `round(x, 2)` (round half to even) is modelled exactly on rationals
  by `pyRound2`.
* The spaCy text normalizer (`_normalize_text`) is an external collaborator;
  every theorem that depends on it quantifies over an arbitrary normalization
  function `norm : String → String`.
* Character classes `\d`, `\w` and `str.lower` are modelled on ASCII; the
  inputs appearing in the source's contract and in all concrete theorems are
  ASCII.  `\s` and `str.strip` use the Python whitespace set.
* Python `set` over lists of strings is modelled by `List.dedup`; only
  membership and cardinality of the resulting sets are ever consumed.
-/

/-- Python whitespace characters (the set stripped by `str.strip()` and
matched by `\s`). -/
def pyIsSpaceChar (c : Char) : Bool :=
  c = ' ' || c = '\t' || c = '\n' || c = '\r' || c = '\x0b' || c = '\x0c' ||
  c = '\x1c' || c = '\x1d' || c = '\x1e' || c = '\x1f' || c = '\x85' ||
  c = '\xa0' || c = ' ' || c = ' ' || c = ' ' || c = ' ' ||
  c = ' ' || c = ' ' || c = ' ' || c = ' ' || c = ' ' ||
  c = ' ' || c = ' ' || c = ' ' || c = ' ' || c = ' ' ||
  c = ' ' || c = ' ' || c = '　'

/-- Python `str.strip()` on a character list. -/
def pyStripList (cs : List Char) : List Char :=
  ((cs.dropWhile pyIsSpaceChar).reverse.dropWhile pyIsSpaceChar).reverse

/-- Python `str.strip()`. -/
def pyStrip (s : String) : String := ⟨pyStripList s.data⟩

/-- Python `str.lower()` (ASCII). -/
def pyLower (s : String) : String := ⟨s.data.map Char.toLower⟩

/-- Python slicing `s[:n]`. -/
def pyTakeStr (n : Nat) (s : String) : String := ⟨s.data.take n⟩

/-- Python `str.startswith(p)`. -/
def pyStartsWith (s p : String) : Bool := p.data.isPrefixOf s.data

/-- Line-break characters recognized by `str.splitlines()`. -/
def pyIsLineBreak (c : Char) : Bool :=
  c = '\n' || c = '\r' || c = '\x0b' || c = '\x0c' || c = '\x1c' ||
  c = '\x1d' || c = '\x1e' || c = '\x85' || c = ' ' || c = ' '

/-- Worker for `str.splitlines()`: `acc` holds the current line reversed. -/
def pySplitlinesGo : List Char → List Char → List String
  | '\r' :: '\n' :: rest, acc => (⟨acc.reverse⟩ : String) :: pySplitlinesGo rest []
  | c :: rest, acc =>
    if pyIsLineBreak c then (⟨acc.reverse⟩ : String) :: pySplitlinesGo rest []
    else pySplitlinesGo rest (c :: acc)
  | [], acc => if acc.isEmpty then [] else [(⟨acc.reverse⟩ : String)]

/-- Python `str.splitlines()`. -/
def pySplitlines (s : String) : List String := pySplitlinesGo s.data []

/-- Python `int()` of a nonempty decimal digit string. -/
def natOfDigits (ds : List Char) : Nat :=
  ds.foldl (fun n c => n * 10 + (c.toNat - '0'.toNat)) 0

/-- The numbered-item pattern of `evaluation_dimension_format_compliance.py`:
`re.match(r'^\s*(\d+)\.\s*(.*)$', line)`.  Returns `(int(group(1)), group(2))`
when the (linebreak-free) line matches. -/
def numMatchCore (cs : List Char) : Option (Nat × List Char) :=
  let r1 := cs.dropWhile pyIsSpaceChar
  let ds := r1.takeWhile Char.isDigit
  let r2 := r1.dropWhile Char.isDigit
  if ds.isEmpty then none
  else
    match r2 with
    | '.' :: rest => some (natOfDigits ds, rest.dropWhile pyIsSpaceChar)
    | _ => none

/-- The flag-line pattern of `evaluation_dimension_recall.py`:
`re.match(r'^\s*\d+\.\s*([^(\n]+?)\s*\(([^)]+)\)$', stripped_line)`.
A (linebreak-free) line matches iff it decomposes as
`ws ++ digits ++ "." ++ m ++ "(" ++ j ++ ")"` where `digits` is nonempty,
`m` is nonempty and contains no `(` (and no newline), and `j` is nonempty
and contains no `)`; the justification group runs to the end of the line.
Returns `(m, j)`; the caller strips both groups, which erases the boundary
ambiguity between group 1 and the `\s*` that follows it. -/
def flagMatchCore (cs : List Char) : Option (List Char × List Char) :=
  let r1 := cs.dropWhile pyIsSpaceChar
  let ds := r1.takeWhile Char.isDigit
  let r2 := r1.dropWhile Char.isDigit
  if ds.isEmpty then none
  else
    match r2 with
    | '.' :: r =>
      let m := r.takeWhile (fun c => c != '(')
      match r.dropWhile (fun c => c != '(') with
      | '(' :: r4 =>
        let j := r4.dropLast
        if !m.isEmpty && m.all (fun c => c != '\n') && !j.isEmpty &&
            j.all (fun c => c != ')') && r4.getLast? == some ')' then
          some (m, j)
        else none
      | _ => none
    | _ => none

/-- One step of the line loop of `_extract_constrained_flags`
(`evaluation_dimension_recall.py`): `inBlock` is the `in_assumptions_block`
flag; reaching `"answer:"` inside the block breaks the loop. -/
def extractGo (norm : String → String) : List String → Bool → List String × List String
  | [], _ => ([], [])
  | line :: rest, inBlock =>
    let s := pyStrip line
    if pyStartsWith (pyLower s) "assumptions:" then extractGo norm rest true
    else if inBlock then
      if pyStartsWith (pyLower s) "answer:" then ([], [])
      else if s = "" then extractGo norm rest true
      else
        match flagMatchCore s.data with
        | some (m, j) =>
          let rawFlag := pyStrip ⟨m⟩
          let rawJust := pyStrip ⟨j⟩
          let flagText :=
            if rawFlag.data.getLast? = some '.' then (⟨rawFlag.data.dropLast⟩ : String)
            else rawFlag
          let (fs, js) := extractGo norm rest true
          (norm flagText :: fs, rawJust :: js)
        | none => extractGo norm rest true
    else extractGo norm rest false

/-- The function `_extract_constrained_flags` of `evaluation_dimension_recall.py`,
parameterized by the external spaCy normalizer `norm`.  Returns the
normalized detected flags and the raw justifications. -/
def extract_constrained_flags (norm : String → String) (response_text : String) :
    List String × List String :=
  extractGo norm (pySplitlines response_text) false

/-- Round half to even (Python `round` on an exactly represented value). -/
def pyRoundHalfToEven (q : ℚ) : ℤ :=
  let f : ℤ := ⌊q⌋
  let r : ℚ := q - (f : ℚ)
  if r < 1/2 then f
  else if 1/2 < r then f + 1
  else if f % 2 = 0 then f else f + 1

/-- Python `round(q, 2)` modelled exactly on rationals. -/
def pyRound2 (q : ℚ) : ℚ := (pyRoundHalfToEven (q * 100) : ℚ) / 100

/-- Result record of `evaluate_assumption_recall`. -/
structure RecallResult where
  recall_score : ℚ
  classification : String
  success : Bool
  error_message : Option String
deriving DecidableEq, Repr

/-- Result record of `evaluate_assumption_precision`. -/
structure PrecisionResult where
  precision_score : ℚ
  classification : String
  success : Bool
  error_message : Option String
deriving DecidableEq, Repr

/-- Result record of `evaluate_hallucinated_flag_rate`. -/
structure HallucinationResult where
  hallucinated_rate : ℚ
  classification : String
  success : Bool
  error_message : Option String
deriving DecidableEq, Repr

/-- Result record of `evaluate_coverage_all_flags_before_answering`. -/
structure CoverageResult where
  all_flags_covered_before_answer : Bool
  success : Bool
  error_message : Option String
deriving DecidableEq, Repr

/-- Result record of `evaluate_total_flags_count`. -/
structure TotalFlagsResult where
  total_flags_count : Nat
  success : Bool
  error_message : Option String
deriving DecidableEq, Repr

/-- The High/Medium/Low thresholds shared by recall and precision
(`>= 0.8`, `>= 0.5`). -/
def classifyLevel (q : ℚ) : String :=
  if q ≥ 4/5 then "High" else if q ≥ 1/2 then "Medium" else "Low"

/-- The function `evaluate_assumption_recall` of `evaluation_dimension_recall.py`, on the
list-of-strings inputs the pipeline supplies (`set` = `List.dedup`). -/
def evaluate_assumption_recall (expected_flags detected_flags : List String) :
    RecallResult :=
  if expected_flags = [] then
    ⟨1, "N/A (No expected flags)", true, none⟩
  else
    let expected_set := expected_flags.dedup
    let detected_set := detected_flags.dedup
    let correctly_recalled := expected_set.filter (fun x => x ∈ detected_set)
    let recallScore : ℚ := (correctly_recalled.length : ℚ) / (expected_set.length : ℚ)
    ⟨recallScore, classifyLevel recallScore, true, none⟩

/-- The function `evaluate_assumption_precision` of `evaluation_dimension_precision.py`. -/
def evaluate_assumption_precision (expected_flags detected_flags : List String) :
    PrecisionResult :=
  if detected_flags = [] then
    ⟨1, "N/A (No flags detected)", true, none⟩
  else
    let expected_set := expected_flags.dedup
    let detected_set := detected_flags.dedup
    let correct_flags := detected_set.filter (fun x => x ∈ expected_set)
    let precision : ℚ := (correct_flags.length : ℚ) / (detected_set.length : ℚ)
    ⟨precision, classifyLevel precision, true, none⟩

/-- The function `evaluate_hallucinated_flag_rate` of
`evaluation_dimension_hallucinated_flag_rate.py`.  Note the source rounds the
returned rate to two decimals (`round(hallucinated_rate, 2)`) after computing
the classification from the unrounded rate. -/
def evaluate_hallucinated_flag_rate (expected_flags detected_flags : List String) :
    HallucinationResult :=
  if detected_flags = [] then
    ⟨0, "N/A (No flags detected)", true, none⟩
  else
    let expected_set := expected_flags.dedup
    let detected_set := detected_flags.dedup
    let hallucinated := detected_set.filter (fun x => x ∉ expected_set)
    let rate : ℚ := (hallucinated.length : ℚ) / (detected_set.length : ℚ)
    let classification :=
      if rate > 1/2 then "High" else if rate > 1/10 then "Medium" else "Low"
    ⟨pyRound2 rate, classification, true, none⟩

/-- The function `evaluate_coverage_all_flags_before_answering` of
`evaluation_dimension_coverage_all_flags_before_answering.py`:
extracts the detected flags from the response and checks
`expected_set.issubset(detected_set)`. -/
def evaluate_coverage_all_flags_before_answering (norm : String → String)
    (response_text : String) (expected_flags : List String) : CoverageResult :=
  let detected_flags := (extract_constrained_flags norm response_text).1
  let expected_set := expected_flags.dedup
  let detected_set := detected_flags.dedup
  ⟨expected_set.all (fun x => x ∈ detected_set), true, none⟩

/-- The function `evaluate_total_flags_count` of `evaluation_dimension_total_flags_count.py`
on a list input (`len(detected_flags)`). -/
def evaluate_total_flags_count (detected_flags : List String) : TotalFlagsResult :=
  ⟨detected_flags.length, true, none⟩

/-- Result record of `evaluate_format_compliance`. -/
structure ComplianceResult where
  compliant : Bool
  details : String
  success : Bool
  error_message : Option String
deriving DecidableEq, Repr

/-- The diagnostic of a sequential-numbering violation:
`f"Numbered list is not sequential. Expected {expected_num}, got {current_num}."`. -/
def seqDetails (expected_num current_num : Nat) : String :=
  "Numbered list is not sequential. Expected " ++ toString expected_num ++
    ", got " ++ toString current_num ++ "."

/-- The diagnostic for content preceding the first numbered item:
`f"Content found in assumptions block before first numbered item or non-numbered item: '{line_content[:50]}...'"`. -/
def contentDetails (line_content : String) : String :=
  "Content found in assumptions block before first numbered item or non-numbered item: \x27" ++
    pyTakeStr 50 line_content ++ "...\x27"

/-- The header-scanning loop of `evaluate_format_compliance`
(`for i, line in enumerate(lines)`): records the last index whose stripped
line starts with `"assumptions:"`, and breaks at the first index whose
stripped line starts with `"answer:"`. -/
def findHeaders : List String → Nat → Option Nat → Option Nat × Option Nat
  | [], _, aIdx => (aIdx, none)
  | line :: rest, i, aIdx =>
    let s := pyLower (pyStrip line)
    let aIdx' := if pyStartsWith s "assumptions:" then some i else aIdx
    if pyStartsWith s "answer:" then (aIdx', some i)
    else findHeaders rest (i + 1) aIdx'

/-- The numbered-item loop of `evaluate_format_compliance` over the non-empty
stripped assumptions-block lines: `found` is `numbered_lines_found` and `exp`
is `expected_num`.  Returns the first failure diagnostic, or the final value
of `numbered_lines_found`. -/
def checkItems : List String → Bool → Nat → Except String Bool
  | [], found, _ => .ok found
  | line :: rest, found, exp =>
    match numMatchCore line.data with
    | some (n, _) =>
      if n ≠ exp then .error (seqDetails exp n)
      else checkItems rest true (exp + 1)
    | none =>
      if !found then .error (contentDetails line)
      else checkItems rest found exp

/-- The stripped non-blank lines of a response, in order
(`non_empty_lines` of `evaluate_format_compliance`). -/
def fcNonEmpty (response_text : String) : List String :=
  ((pySplitlines response_text).map pyStrip).filter (fun l => l ≠ "")

/-- The pair `(assumptions_start_index, answer_start_index)` of
`evaluate_format_compliance` (`none` standing for `-1`). -/
def fcHeaders (response_text : String) : Option Nat × Option Nat :=
  findHeaders (pySplitlines response_text) 0 none

/-- The list `assumptions_content_non_empty` of `evaluate_format_compliance`: the
stripped non-blank lines strictly between the assumptions header and the
answer header (or the end of the text). -/
def fcContent (response_text : String) : List String :=
  match fcHeaders response_text with
  | (some a, ansIdx) =>
    let lines := pySplitlines response_text
    let content_lines :=
      match ansIdx with
      | some b => (lines.take b).drop (a + 1)
      | none => lines.drop (a + 1)
    (content_lines.map pyStrip).filter (fun l => l ≠ "")
  | (none, _) => []

/-- The numbers carried by the numbered lines of the assumptions block, in
order of appearance. -/
def fcNums (response_text : String) : List Nat :=
  (fcContent response_text).filterMap (fun l => (numMatchCore l.data).map Prod.fst)

/-- Whether the first non-blank line of the response starts with
`"assumptions:"` (case-insensitively) — check 1 of
`evaluate_format_compliance`. -/
def fcHeaderOk (response_text : String) : Bool :=
  match fcNonEmpty response_text with
  | first :: _ => pyStartsWith (pyLower first) "assumptions:"
  | [] => false

/-- Whether the first non-blank line of the assumptions block matches the
numbered-item pattern. -/
def fcHeadNumbered (response_text : String) : Bool :=
  match fcContent response_text with
  | l :: _ => (numMatchCore l.data).isSome
  | [] => false

/-- The function `evaluate_format_compliance` of
`evaluation_dimension_format_compliance.py` on a string input (the
non-string branch is modelled on the dynamic embedding below). -/
def evaluate_format_compliance (response_text : String) : ComplianceResult :=
  match fcNonEmpty response_text with
  | [] => ⟨false, "Response is empty or only whitespace.", true, none⟩
  | first :: _ =>
    if !pyStartsWith (pyLower first) "assumptions:" then
      ⟨false, "Does not start with \x27Assumptions:\x27. Found: \x27" ++
        pyTakeStr 50 first ++ "...\x27", true, none⟩
    else
      match fcHeaders response_text with
      | (none, ansIdx) =>
        if ansIdx = none then ⟨false, "No \x27Answer:\x27 section found.", true, none⟩
        else ⟨true, "Format is compliant.", true, none⟩
      | (some _, ansIdx) =>
        let content := fcContent response_text
        let blockResult : Option ComplianceResult :=
          if content ≠ [] then
            match checkItems content false 1 with
            | .error d => some ⟨false, d, true, none⟩
            | .ok found =>
              if !found then
                some ⟨false, "Assumptions block contains content but no numbered list items.",
                  true, none⟩
              else none
          else if ansIdx = none then
            some ⟨false,
              "No \x27Answer:\x27 section found after \x27Assumptions:\x27 and no content in between.",
              true, none⟩
          else none
        match blockResult with
        | some r => r
        | none =>
          if ansIdx = none then ⟨false, "No \x27Answer:\x27 section found.", true, none⟩
          else ⟨true, "Format is compliant.", true, none⟩

/-! ### Dynamic embedding

Python values of the shapes a caller can pass to a metric function.  Floats
are modelled as exact rationals.  A Python exception raised inside a metric
body is modelled as `Except.error` carrying the exception text; each metric's
`try/except Exception` boundary converts it into a failure record. -/

inductive PyVal where
  | vNone
  | vBool (b : Bool)
  | vInt (n : ℤ)
  | vFloat (q : ℚ)
  | vStr (s : String)
  | vList (xs : List PyVal)

/-- Python `type(v).__name__`. -/
def pyTypeName : PyVal → String
  | .vNone => "NoneType"
  | .vBool _ => "bool"
  | .vInt _ => "int"
  | .vFloat _ => "float"
  | .vStr _ => "str"
  | .vList _ => "list"

/-- Python truthiness (`bool(v)`); never raises on these shapes. -/
def pyTruthy : PyVal → Bool
  | .vNone => false
  | .vBool b => b
  | .vInt n => n ≠ 0
  | .vFloat q => q ≠ 0
  | .vStr s => s ≠ ""
  | .vList xs => !xs.isEmpty

/-- Numeric view used by Python `==` (`True == 1 == 1.0`). -/
def pyToRat : PyVal → Option ℚ
  | .vBool b => some (if b then 1 else 0)
  | .vInt n => some (n : ℚ)
  | .vFloat q => some q
  | _ => none

/-- Python `==` on hashable values. -/
def pyEq (a b : PyVal) : Bool :=
  match pyToRat a, pyToRat b with
  | some x, some y => x = y
  | _, _ =>
    match a, b with
    | .vNone, .vNone => true
    | .vStr s, .vStr t => s = t
    | _, _ => false

/-- Whether `hash(v)` is defined. -/
def pyHashable : PyVal → Bool
  | .vList _ => false
  | _ => true

/-- Python iteration (`for x in v`); strings iterate over their characters. -/
def pyIterElems : PyVal → Except String (List PyVal)
  | .vStr s => .ok (s.data.map fun c => .vStr ⟨[c]⟩)
  | .vList xs => .ok xs
  | v => .error ("TypeError: \x27" ++ pyTypeName v ++ "\x27 object is not iterable")

/-- Deduplication underlying `set(...)` (membership up to `pyEq`). -/
def pyDedup : List PyVal → List PyVal
  | [] => []
  | x :: xs =>
    let r := pyDedup xs
    if r.any (fun y => pyEq x y) then r else x :: r

/-- Python `set(v)`. -/
def pySet (v : PyVal) : Except String (List PyVal) := do
  let elems ← pyIterElems v
  if elems.all pyHashable then pure (pyDedup elems)
  else throw "TypeError: unhashable type: \x27list\x27"

/-- Python `len(v)`. -/
def pyLenVal : PyVal → Except String Nat
  | .vStr s => .ok s.data.length
  | .vList xs => .ok xs.length
  | v => .error ("TypeError: object of type \x27" ++ pyTypeName v ++ "\x27 has no len()")

/-- Body of `evaluate_assumption_recall` inside its `try:`. -/
def recallBody (expected_flags detected_flags : PyVal) : Except String RecallResult := do
  if !pyTruthy expected_flags then
    return ⟨1, "N/A (No expected flags)", true, none⟩
  let expected_set ← pySet expected_flags
  let detected_set ← pySet detected_flags
  let correctly_recalled := expected_set.filter (fun x => detected_set.any (pyEq x))
  let recallScore : ℚ := (correctly_recalled.length : ℚ) / (expected_set.length : ℚ)
  return ⟨recallScore, classifyLevel recallScore, true, none⟩

/-- The function `evaluate_assumption_recall` over arbitrary Python inputs: the
`except Exception` boundary. -/
def evaluate_assumption_recall_dyn (expected_flags detected_flags : PyVal) : RecallResult :=
  match recallBody expected_flags detected_flags with
  | .ok r => r
  | .error e => ⟨0, "Error", false, some e⟩

/-- Body of `evaluate_assumption_precision` inside its `try:`. -/
def precisionBody (expected_flags detected_flags : PyVal) : Except String PrecisionResult := do
  if !pyTruthy detected_flags then
    return ⟨1, "N/A (No flags detected)", true, none⟩
  let expected_set ← pySet expected_flags
  let detected_set ← pySet detected_flags
  let correct_flags := detected_set.filter (fun x => expected_set.any (pyEq x))
  let precision : ℚ := (correct_flags.length : ℚ) / (detected_set.length : ℚ)
  return ⟨precision, classifyLevel precision, true, none⟩

/-- The function `evaluate_assumption_precision` over arbitrary Python inputs. -/
def evaluate_assumption_precision_dyn (expected_flags detected_flags : PyVal) :
    PrecisionResult :=
  match precisionBody expected_flags detected_flags with
  | .ok r => r
  | .error e => ⟨0, "Error", false, some e⟩

/-- Body of `evaluate_hallucinated_flag_rate` inside its `try:`. -/
def hallucinationBody (expected_flags detected_flags : PyVal) :
    Except String HallucinationResult := do
  if !pyTruthy detected_flags then
    return ⟨0, "N/A (No flags detected)", true, none⟩
  let expected_set ← pySet expected_flags
  let detected_set ← pySet detected_flags
  let hallucinated := detected_set.filter (fun x => !expected_set.any (pyEq x))
  let rate : ℚ := (hallucinated.length : ℚ) / (detected_set.length : ℚ)
  let classification :=
    if rate > 1/2 then "High" else if rate > 1/10 then "Medium" else "Low"
  return ⟨pyRound2 rate, classification, true, none⟩

/-- The function `evaluate_hallucinated_flag_rate` over arbitrary Python inputs. -/
def evaluate_hallucinated_flag_rate_dyn (expected_flags detected_flags : PyVal) :
    HallucinationResult :=
  match hallucinationBody expected_flags detected_flags with
  | .ok r => r
  | .error e => ⟨0, "Error", false, some e⟩

/-- Body of `evaluate_coverage_all_flags_before_answering` inside its `try:`:
`_extract_constrained_flags` returns two empty lists on a non-string
response; `set(expected_flags)` may raise. -/
def coverageBody (norm : String → String) (response_text expected_flags : PyVal) :
    Except String CoverageResult := do
  let detected_flags : List PyVal :=
    match response_text with
    | .vStr s => ((extract_constrained_flags norm s).1.map PyVal.vStr)
    | _ => []
  let expected_set ← pySet expected_flags
  let detected_set := pyDedup detected_flags
  let all_covered := expected_set.all (fun x => detected_set.any (pyEq x))
  return ⟨all_covered, true, none⟩

/-- The function `evaluate_coverage_all_flags_before_answering` over arbitrary
Python inputs. -/
def evaluate_coverage_dyn (norm : String → String) (response_text expected_flags : PyVal) :
    CoverageResult :=
  match coverageBody norm response_text expected_flags with
  | .ok r => r
  | .error e => ⟨false, false, some e⟩

/-- The function `evaluate_total_flags_count` over arbitrary Python inputs
(`len(detected_flags)` raises on unsized values). -/
def evaluate_total_flags_count_dyn (detected_flags : PyVal) : TotalFlagsResult :=
  match pyLenVal detected_flags with
  | .ok n => ⟨n, true, none⟩
  | .error e => ⟨0, false, some e⟩

/-- The function `evaluate_format_compliance` over arbitrary Python inputs: the body
starts with an explicit `isinstance(response_text, str)` check and cannot
raise afterwards. -/
def evaluate_format_compliance_dyn (response_text : PyVal) : ComplianceResult :=
  match response_text with
  | .vStr s => evaluate_format_compliance s
  | _ => ⟨false, "Response is not a string.", true, none⟩

/-- Result record of `evaluate_justification_conciseness`. -/
structure JustificationResult where
  average_words_per_justification : ℚ
  classification : String
  success : Bool
  error_message : Option String
deriving DecidableEq, Repr

/-- Body of `evaluate_justification_conciseness`
(`evaluation_dimension_justification_conciseness.py`) inside its `try:`.
`tokCount s` stands for the external spaCy count of non-space tokens of `s`.
The per-item guard `if just_text and just_text.strip():` evaluates
`.strip()` only on truthy items and raises `AttributeError` on truthy
non-strings. -/
def justificationFold (tokCount : String → Nat) (elems : List PyVal) :
    Except String (Nat × Nat) :=
  elems.foldlM (fun (acc : Nat × Nat) just_text => do
    if pyTruthy just_text then
      match just_text with
      | .vStr s =>
        if pyTruthy (.vStr (pyStrip s)) then pure (acc.1 + tokCount s, acc.2 + 1)
        else pure acc
      | v => throw ("AttributeError: \x27" ++ pyTypeName v ++
          "\x27 object has no attribute \x27strip\x27")
    else pure acc) ((0, 0) : Nat × Nat)

def justificationBody (tokCount : String → Nat) (justifications : PyVal) :
    Except String JustificationResult := do
  if !pyTruthy justifications then
    return ⟨0, "N/A (No justifications)", true, none⟩
  let elems ← pyIterElems justifications
  let totals ← justificationFold tokCount elems
  if totals.2 = 0 then
    return ⟨0, "N/A (No non-empty justifications)", true, none⟩
  let avg : ℚ := (totals.1 : ℚ) / (totals.2 : ℚ)
  let classification := if avg ≤ 10 then "Short" else if avg ≤ 20 then "Medium" else "Long"
  return ⟨pyRound2 avg, classification, true, none⟩

/-- The function `evaluate_justification_conciseness` over arbitrary Python inputs. -/
def evaluate_justification_conciseness_dyn (tokCount : String → Nat)
    (justifications : PyVal) : JustificationResult :=
  match justificationBody tokCount justifications with
  | .ok r => r
  | .error e => ⟨0, "Error", false, some e⟩

/-- Result record of `evaluate_answer_conciseness`; the source mixes ints and
the string `"N/A"` in `word_count`/`sentence_count`, so those fields are
dynamic. -/
structure AnswerResult where
  word_count : PyVal
  sentence_count : PyVal
  classification : String
  success : Bool
  error_message : Option String

/-- Index of the first occurrence of `p` as a contiguous sublist of `s`. -/
def findSubIdx (p : List Char) : List Char → Option Nat
  | [] => if p.isEmpty then some 0 else none
  | c :: rest =>
    if p.isPrefixOf (c :: rest) then some 0 else (findSubIdx p rest).map (· + 1)

/-- The function `_extract_answer_text` of `evaluation_dimension_answer_conciseness.py`:
`re.search(r"Answer:\s*(.*)", response_text, re.DOTALL | re.IGNORECASE)`
locates the first case-insensitive occurrence of `"answer:"`, skips the
whitespace after it, takes everything to the end of the text (DOTALL) and
strips it. -/
def extract_answer_text (response_text : String) : String :=
  match findSubIdx "answer:".data ((pyLower response_text).data) with
  | some i => pyStrip ⟨(response_text.data.drop (i + 7)).dropWhile pyIsSpaceChar⟩
  | none => ""

/-- Body of `evaluate_answer_conciseness` inside its `try:`.  `tokStats s`
stands for the external spaCy alphabetic-word count and sentence count of
`s`; `re.search` raises `TypeError` on a non-string input. -/
def answerBody (tokStats : String → Nat × Nat) (constrained_response_text : PyVal) :
    Except String AnswerResult :=
  match constrained_response_text with
  | .vStr s =>
    if extract_answer_text s = "" then
      .ok ⟨.vInt 0, .vInt 0, "N/A (No answer text)", true, none⟩
    else
      .ok ⟨.vInt (tokStats (extract_answer_text s)).1,
        .vInt (tokStats (extract_answer_text s)).2,
        (if (tokStats (extract_answer_text s)).1 ≤ 10 then "Very Short"
         else if (tokStats (extract_answer_text s)).1 ≤ 30 then "Short"
         else if (tokStats (extract_answer_text s)).1 ≤ 60 then "Medium"
         else "Long"), true, none⟩
  | _ => .error "TypeError: expected string or bytes-like object"

/-- The function `evaluate_answer_conciseness` over arbitrary Python inputs. -/
def evaluate_answer_conciseness_dyn (tokStats : String → Nat × Nat)
    (constrained_response_text : PyVal) : AnswerResult :=
  match answerBody tokStats constrained_response_text with
  | .ok r => r
  | .error e =>
    ⟨.vStr "N/A", .vStr "N/A", "N/A", false,
      some ("Error evaluating answer conciseness: " ++ e)⟩

/-- Result record of `evaluate_hedging_count`. -/
structure HedgingResult where
  hedging_count : Nat
  success : Bool
  error_message : Option String
deriving DecidableEq, Repr

/-- Python `\w` on the lowercased ASCII text the hedging counter scans. -/
def isWordChar (c : Char) : Bool := c.isAlphanum || c = '_'

/-- A word boundary (`\b`) between an optional previous character and a
current character: exactly one side is a word character (a missing side
counts as non-word). -/
def atBoundary (prev : Option Char) (cur : Option Char) : Bool :=
  (match prev with | some c => isWordChar c | none => false) !=
    (match cur with | some c => isWordChar c | none => false)

/-- Python `len(re.findall(r'\b(?:<phrase>)\b', text))`: the number of
non-overlapping boundary-anchored occurrences of the (nonempty) phrase
`c0 :: pr`, scanning left to right; `prev` is the character before the
current position. -/
def countPhrase (c0 : Char) (pr : List Char) (prev : Option Char) (s : List Char) : Nat :=
  match s with
  | [] => 0
  | c :: rest =>
    if (c0 :: pr).isPrefixOf (c :: rest) &&
        atBoundary prev (some c0) &&
        atBoundary (some (pr.getLastD c0)) (((c :: rest).drop (pr.length + 1)).head?) then
      1 + countPhrase c0 pr (some (pr.getLastD c0)) (rest.drop pr.length)
    else countPhrase c0 pr (some c) rest
termination_by s.length
decreasing_by
  all_goals simp [List.length_drop]
  omega

/-- The fixed hedging vocabulary of `evaluation_dimension_hedging_count.py`
(the patterns are matched against the lowercased response, so the
`"I believe"` pattern never fires — embedded as in the source). -/
def hedgingPhrases : List String :=
  ["it seems", "it appears", "may be", "might be", "could be", "suggests that",
   "potentially", "I believe", "in my opinion", "often", "typically", "generally",
   "some argue", "it is possible", "it is likely", "appears to be", "can be seen as",
   "tends to", "seems to", "possibly", "presumably", "in some cases",
   "from my understanding"]

/-- The total hedging-phrase count over the lowercased response. -/
def hedgingCount (s : String) : Nat :=
  (hedgingPhrases.map (fun p =>
    match p.data with
    | c0 :: pr => countPhrase c0 pr none (pyLower s).data
    | [] => 0)).sum

/-- The function `evaluate_hedging_count` over arbitrary Python inputs: non-strings and
blank strings short-circuit to a zero count with an explanatory message (and
`success=True`); the remaining body is pure string scanning and cannot
raise. -/
def evaluate_hedging_count_dyn (unconstrained_llm_response : PyVal) : HedgingResult :=
  match unconstrained_llm_response with
  | .vStr s =>
    if pyStrip s = "" then
      ⟨0, true, some "Empty or invalid unconstrained LLM response."⟩
    else ⟨hedgingCount s, true, none⟩
  | _ => ⟨0, true, some "Empty or invalid unconstrained LLM response."⟩

/-- The error policy a metric's result must satisfy: either the evaluation
succeeded, or it failed carrying an error message. -/
def wellFormedResult (success : Bool) (error_message : Option String) : Prop :=
  success = true ∨ (success = false ∧ error_message ≠ none)

/-! ### Helper lemmas -/

theorem dropWhile_append_of_all {α : Type} (p : α → Bool) (l1 l2 : List α)
    (h : ∀ a ∈ l1, p a = true) : (l1 ++ l2).dropWhile p = l2.dropWhile p := by
  induction l1 with
  | nil => rfl
  | cons a l ih =>
    simp only [List.cons_append, List.dropWhile_cons, h a (by simp), if_true]
    exact ih fun b hb => h b (by simp [hb])

theorem takeWhile_append_of_all {α : Type} (p : α → Bool) (l1 l2 : List α)
    (h : ∀ a ∈ l1, p a = true) : (l1 ++ l2).takeWhile p = l1 ++ l2.takeWhile p := by
  induction l1 with
  | nil => rfl
  | cons a l ih =>
    simp only [List.cons_append, List.takeWhile_cons, h a (by simp), if_true]
    exact congrArg (a :: ·) (ih fun b hb => h b (by simp [hb]))

theorem length_filter_add_length_filter_not {α : Type} (p : α → Bool) (l : List α) :
    (l.filter p).length + (l.filter (fun a => !p a)).length = l.length := by
  induction l with
  | nil => rfl
  | cons a l ih =>
    by_cases hp : p a = true <;> simp [List.filter_cons, hp, ← ih] <;> omega

theorem mem_of_mem_dropWhile {α : Type} (p : α → Bool) (l : List α) (a : α)
    (h : a ∈ l.dropWhile p) : a ∈ l := by
  induction l with
  | nil => simp at h
  | cons b l ih =>
    rw [List.dropWhile_cons] at h
    by_cases hb : p b = true
    · simp only [hb, if_true] at h
      exact List.mem_cons_of_mem b (ih h)
    · simp only [hb] at h
      simpa using h

theorem flagMatch_none_of_no_paren (cs : List Char) (h : '(' ∉ cs) :
    flagMatchCore cs = none := by
  unfold flagMatchCore
  simp only
  split
  · rfl
  · split
    · next r heq =>
      have hmem : ∀ a ∈ r, a ∈ cs := by
        intro a ha
        have h1 : a ∈ (cs.dropWhile pyIsSpaceChar).dropWhile Char.isDigit := by
          rw [heq]; exact List.mem_cons_of_mem _ ha
        exact mem_of_mem_dropWhile _ _ _ (mem_of_mem_dropWhile _ _ _ h1)
      have hdrop : r.dropWhile (fun c => c != '(') = [] := by
        rw [List.dropWhile_eq_nil_iff]
        intro a ha
        have haa : a ∈ cs := hmem a ha
        simp only [bne_iff_ne, ne_eq]
        intro heq2
        exact h (heq2 ▸ haa)
      rw [hdrop]
    · rfl

theorem not_space_of_digit (c : Char) (h : c.isDigit = true) : pyIsSpaceChar c = false := by
  by_contra hc
  rw [Bool.not_eq_false] at hc
  simp only [pyIsSpaceChar, Bool.or_eq_true, decide_eq_true_eq] at hc
  simp only [or_assoc] at hc
  rcases hc with rfl|rfl|rfl|rfl|rfl|rfl|rfl|rfl|rfl|rfl|rfl|rfl|rfl|rfl|
    rfl|rfl|rfl|rfl|rfl|rfl|rfl|rfl|rfl|rfl|rfl|rfl|rfl|rfl|rfl <;>
    exact absurd h (by decide)

theorem findHeaders_fst_isSome (lines : List String) (i : Nat) (aIdx : Option Nat)
    (h : aIdx.isSome = true ∨
      ∃ first rest2, ((lines.map pyStrip).filter (fun l => l ≠ "")) = first :: rest2 ∧
        pyStartsWith (pyLower first) "assumptions:" = true) :
    ((findHeaders lines i aIdx).1).isSome = true := by
  induction lines generalizing i aIdx with
  | nil =>
    rcases h with h | ⟨first, rest2, habs, _⟩
    · simpa [findHeaders] using h
    · simp at habs
  | cons line rest ih =>
    simp only [findHeaders]
    by_cases hb : pyStrip line = ""
    · have h1 : pyStartsWith (pyLower (pyStrip line)) "assumptions:" = false := by
        rw [hb]; decide
      have h2 : pyStartsWith (pyLower (pyStrip line)) "answer:" = false := by
        rw [hb]; decide
      simp only [h1, h2, Bool.false_eq_true, if_false]
      apply ih
      rcases h with h | ⟨first, rest2, habs, hstart⟩
      · exact Or.inl h
      · right
        refine ⟨first, rest2, ?_, hstart⟩
        simpa [List.map_cons, List.filter_cons, hb] using habs
    · rcases h with hsome | ⟨first, rest2, habs, hstart⟩
      · by_cases hans : pyStartsWith (pyLower (pyStrip line)) "answer:" = true
        · by_cases ha : pyStartsWith (pyLower (pyStrip line)) "assumptions:" = true <;>
            simp [ha, hans, hsome]
        · simp only [hans, Bool.false_eq_true, if_false]
          apply ih
          left
          by_cases ha : pyStartsWith (pyLower (pyStrip line)) "assumptions:" = true <;>
            simp [ha, hsome]
      · have hfirst : pyStrip line = first := by
          simp only [List.map_cons, List.filter_cons, decide_not] at habs
          rw [if_pos (by simpa using hb)] at habs
          exact (List.cons.injEq _ _ _ _ ▸ habs).1
        have ha : pyStartsWith (pyLower (pyStrip line)) "assumptions:" = true := by
          rw [hfirst]; exact hstart
        by_cases hans : pyStartsWith (pyLower (pyStrip line)) "answer:" = true
        · simp [hans, ha]
        · simp only [hans, Bool.false_eq_true, if_false]
          exact ih _ _ (Or.inl (by simp [ha]))

theorem checkItems_first_violation (ls : List String) :
    ∀ (exp j g : Nat),
      (ls.filterMap (fun l => (numMatchCore l.data).map Prod.fst)).take j
        = List.range' exp j →
      (ls.filterMap (fun l => (numMatchCore l.data).map Prod.fst))[j]? = some g →
      g ≠ exp + j →
      checkItems ls true exp = .error (seqDetails (exp + j) g) := by
  induction ls with
  | nil =>
    intro exp j g _ hget _
    simp at hget
  | cons l rest ih =>
    intro exp j g htake hget hne
    cases hm : numMatchCore l.data with
    | none =>
      have hfm : (l :: rest).filterMap (fun l => (numMatchCore l.data).map Prod.fst)
          = rest.filterMap (fun l => (numMatchCore l.data).map Prod.fst) := by
        simp [List.filterMap_cons, hm]
      rw [hfm] at htake hget
      simp only [checkItems, hm, Bool.not_true, Bool.false_eq_true, if_false]
      exact ih exp j g htake hget hne
    | some p =>
      obtain ⟨n, r⟩ := p
      have hfm : (l :: rest).filterMap (fun l => (numMatchCore l.data).map Prod.fst)
          = n :: rest.filterMap (fun l => (numMatchCore l.data).map Prod.fst) := by
        simp [List.filterMap_cons, hm]
      rw [hfm] at htake hget
      cases j with
      | zero =>
        have hg : n = g := by simpa using hget
        subst hg
        simp only [checkItems, hm]
        rw [if_pos (show n ≠ exp by simpa using hne), Nat.add_zero]
      | succ k =>
        rw [List.take_succ_cons, List.range'_succ] at htake
        injection htake with h1 h2
        subst h1
        simp only [checkItems, hm]
        rw [if_neg (by simp)]
        have hrec := ih (n + 1) k g h2 (by simpa using hget) (by omega)
        rw [hrec, show n + (k + 1) = n + 1 + k from by omega]

theorem recallBody_success (e d : PyVal) (r : RecallResult)
    (h : recallBody e d = .ok r) : r.success = true := by
  unfold recallBody at h
  by_cases ht : (!pyTruthy e) = true
  · rw [if_pos ht] at h
    simp only [pure, Except.pure, Except.ok.injEq] at h
    rw [← h]
  · rw [if_neg ht] at h
    cases hse : pySet e with
    | error m => rw [hse] at h; simp [Bind.bind, Except.bind, pure, Except.pure] at h
    | ok es =>
      rw [hse] at h
      cases hsd : pySet d with
      | error m => rw [hsd] at h; simp [Bind.bind, Except.bind, pure, Except.pure] at h
      | ok ds =>
        rw [hsd] at h
        simp only [Bind.bind, Except.bind, pure, Except.pure, Except.ok.injEq] at h
        rw [← h]

theorem precisionBody_success (e d : PyVal) (r : PrecisionResult)
    (h : precisionBody e d = .ok r) : r.success = true := by
  unfold precisionBody at h
  by_cases ht : (!pyTruthy d) = true
  · rw [if_pos ht] at h
    simp only [pure, Except.pure, Except.ok.injEq] at h
    rw [← h]
  · rw [if_neg ht] at h
    cases hse : pySet e with
    | error m => rw [hse] at h; simp [Bind.bind, Except.bind, pure, Except.pure] at h
    | ok es =>
      rw [hse] at h
      cases hsd : pySet d with
      | error m => rw [hsd] at h; simp [Bind.bind, Except.bind, pure, Except.pure] at h
      | ok ds =>
        rw [hsd] at h
        simp only [Bind.bind, Except.bind, pure, Except.pure, Except.ok.injEq] at h
        rw [← h]

theorem hallucinationBody_success (e d : PyVal) (r : HallucinationResult)
    (h : hallucinationBody e d = .ok r) : r.success = true := by
  unfold hallucinationBody at h
  by_cases ht : (!pyTruthy d) = true
  · rw [if_pos ht] at h
    simp only [pure, Except.pure, Except.ok.injEq] at h
    rw [← h]
  · rw [if_neg ht] at h
    cases hse : pySet e with
    | error m => rw [hse] at h; simp [Bind.bind, Except.bind, pure, Except.pure] at h
    | ok es =>
      rw [hse] at h
      cases hsd : pySet d with
      | error m => rw [hsd] at h; simp [Bind.bind, Except.bind, pure, Except.pure] at h
      | ok ds =>
        rw [hsd] at h
        simp only [Bind.bind, Except.bind, pure, Except.pure, Except.ok.injEq] at h
        rw [← h]

theorem coverageBody_success (norm : String → String) (resp expv : PyVal)
    (r : CoverageResult) (h : coverageBody norm resp expv = .ok r) : r.success = true := by
  unfold coverageBody at h
  cases hse : pySet expv with
  | error m => rw [hse] at h; simp [Bind.bind, Except.bind, pure, Except.pure] at h
  | ok es =>
    rw [hse] at h
    simp only [Bind.bind, Except.bind, pure, Except.pure, Except.ok.injEq] at h
    rw [← h]

theorem justificationBody_success (tokCount : String → Nat) (v : PyVal)
    (r : JustificationResult) (h : justificationBody tokCount v = .ok r) :
    r.success = true := by
  unfold justificationBody at h
  by_cases ht : (!pyTruthy v) = true
  · rw [if_pos ht] at h
    simp only [pure, Except.pure, Except.ok.injEq] at h
    rw [← h]
  · rw [if_neg ht] at h
    cases hit : pyIterElems v with
    | error m => rw [hit] at h; simp [Bind.bind, Except.bind, pure, Except.pure] at h
    | ok elems =>
      rw [hit] at h
      simp only [Bind.bind, Except.bind] at h
      cases hfold : justificationFold tokCount elems with
      | error m => rw [hfold] at h; simp [pure, Except.pure] at h
      | ok totals =>
        rw [hfold] at h
        simp only [pure, Except.pure] at h
        by_cases hz : totals.2 = 0
        · rw [if_pos hz] at h
          simp only [pure, Except.pure, Except.ok.injEq] at h
          rw [← h]
        · rw [if_neg hz] at h
          simp only [pure, Except.pure, Except.ok.injEq] at h
          rw [← h]

theorem answerBody_success (tokStats : String → Nat × Nat) (v : PyVal)
    (r : AnswerResult) (h : answerBody tokStats v = .ok r) : r.success = true := by
  unfold answerBody at h
  cases v with
  | vStr s =>
    split at h
    · split at h <;> (simp only [Except.ok.injEq] at h; rw [← h])
    · next hcontra => exact (hcontra s rfl).elim
  | vNone => simp at h
  | vBool b => simp at h
  | vInt n => simp at h
  | vFloat q => simp at h
  | vList xs => simp at h

theorem format_compliance_success (s : String) :
    (evaluate_format_compliance s).success = true := by
  unfold evaluate_format_compliance
  cases hne : fcNonEmpty s with
  | nil => rfl
  | cons first r =>
    simp only
    by_cases hstart : pyStartsWith (pyLower first) "assumptions:" = true
    · simp only [hstart, Bool.not_true, Bool.false_eq_true, if_false]
      rcases hfh : fcHeaders s with ⟨aIdx, ansIdx⟩
      cases aIdx with
      | none => by_cases hans : ansIdx = none <;> simp [hans]
      | some a =>
        by_cases hcont : fcContent s = []
        · by_cases hans : ansIdx = none <;> simp [hcont, hans]
        · cases hchk : checkItems (fcContent s) false 1 with
          | error dd => simp [hcont, hchk]
          | ok found =>
            cases found
            · simp [hcont, hchk]
            · by_cases hans : ansIdx = none <;> simp [hcont, hchk, hans]
    · simp [hstart]

/-! ### Claim theorems -/

/-- C4: `evaluate_assumption_recall` on an empty expected list returns score
1.0 with the `"N/A (No expected flags)"` classification and `success=True`
for every detected list, and `evaluate_assumption_precision` on an empty
detected list returns score 1.0 with the `"N/A (No flags detected)"`
classification and `success=True` for every expected list. -/
theorem C4_trivial_scores :
    (∀ detected_flags : List String,
        evaluate_assumption_recall [] detected_flags
          = ⟨1, "N/A (No expected flags)", true, none⟩) ∧
    (∀ expected_flags : List String,
        evaluate_assumption_precision expected_flags []
          = ⟨1, "N/A (No flags detected)", true, none⟩) :=
  ⟨fun _ => rfl, fun _ => rfl⟩

/-- C6: on the synthetic response
`"Assumptions:\n1. A. (J1)\n2. B. (J2)\nAnswer: X"`, extraction yields the
normalized flags `[norm "A", norm "B"]` (trailing periods stripped before
normalization) and the raw justifications `["J1", "J2"]`, in that order, for
every normalizer `norm`. -/
theorem C6_extraction_round_trip (norm : String → String) :
    extract_constrained_flags norm "Assumptions:\n1. A. (J1)\n2. B. (J2)\nAnswer: X"
      = ([norm "A", norm "B"], ["J1", "J2"]) := rfl

/-- C2 refuted: in the response `"Assumptions:\n1. A.\nblah blah\nAnswer: X"`
the assumptions block contains the numbered line `"1. A."` followed by the
non-blank line `"blah blah"` that does not match the numbered-item pattern,
yet `evaluate_format_compliance` returns `compliant=True` — the non-matching
line after a numbered line is silently skipped, not a failure. -/
theorem C2_counterexample :
    (numMatchCore "1. A.".data).isSome = true ∧
    numMatchCore "blah blah".data = none ∧
    fcContent "Assumptions:\n1. A.\nblah blah\nAnswer: X" = ["1. A.", "blah blah"] ∧
    evaluate_format_compliance "Assumptions:\n1. A.\nblah blah\nAnswer: X"
      = ⟨true, "Format is compliant.", true, none⟩ := by decide

/-- C2 (amended): once at least one numbered line has been seen inside the
assumptions block, a subsequent non-blank line that does not match the
numbered-item pattern is skipped by the validator and does not affect the
compliance verdict; in particular a response with prose after its first
numbered item is still compliant. -/
theorem C2_amended :
    (∀ (line : String) (rest : List String) (exp : Nat),
        numMatchCore line.data = none →
        checkItems (line :: rest) true exp = checkItems rest true exp) ∧
    evaluate_format_compliance "Assumptions:\n1. A.\nextra prose here\nAnswer: X"
      = ⟨true, "Format is compliant.", true, none⟩ := by
  constructor
  · intro line rest exp h
    simp [checkItems, h]
  · decide

/-- Witness for the amended C2 at a concrete skipped line. -/
theorem C2_amended_witness :
    checkItems ["some prose", "2. B."] true 2 = checkItems ["2. B."] true 2 :=
  C2_amended.1 "some prose" ["2. B."] 2 (by decide)

/-- C8 refuted: in
`"preamble\nAssumptions:\n1. A (J)\nAnswer: X"` the first non-blank line is
`"preamble"`, which does not start with `"assumptions:"`, yet extraction
returns the non-empty sequences `(["A"], ["J"])` — the extractor honours an
`"Assumptions:"` header on any line, not only the first non-blank one. -/
theorem C8_counterexample :
    (fcNonEmpty "preamble\nAssumptions:\n1. A (J)\nAnswer: X").head? = some "preamble" ∧
    pyStartsWith (pyLower "preamble") "assumptions:" = false ∧
    extract_constrained_flags id "preamble\nAssumptions:\n1. A (J)\nAnswer: X"
      = (["A"], ["J"]) := by decide

/-- C8 (amended): the extractor recognizes the `"Assumptions:"` header
(case-insensitively) on any line of the response, not only as the first
non-blank line; if no line of the response starts with `"assumptions:"`
(after stripping, case-insensitively), extraction returns two empty
sequences.  (The converse does not hold: a response with a header but no
matching flag line also extracts to two empty sequences.) -/
theorem C8_amended (norm : String → String) (response_text : String)
    (h : ∀ l ∈ pySplitlines response_text,
        pyStartsWith (pyLower (pyStrip l)) "assumptions:" = false) :
    extract_constrained_flags norm response_text = ([], []) := by
  unfold extract_constrained_flags
  generalize hl : pySplitlines response_text = lines at h ⊢
  clear hl
  induction lines with
  | nil => rfl
  | cons line rest ih =>
    have h0 : pyStartsWith (pyLower (pyStrip line)) "assumptions:" = false :=
      h line (by simp)
    simp only [extractGo, h0, Bool.false_eq_true, if_false]
    exact ih fun l hl => h l (by simp [hl])

/-- Witness for the amended C8: a header-free response extracts to nothing. -/
theorem C8_amended_witness :
    extract_constrained_flags id "hello there\nAnswer: x" = ([], []) :=
  C8_amended id "hello there\nAnswer: x" (by decide)

/-- C10: a numbered line without a trailing parenthesized group (it contains
no parenthesis at all) is counted as a valid numbered item by the format
validator but skipped by the extractor; consequently
`"Assumptions:\n1. A.\nAnswer: X"` is format-compliant while extraction
returns two empty sequences and the total flags count over the (empty)
detected flags is 0. -/
theorem C10_unparen_numbered_lines :
    (∀ cs : List Char, '(' ∉ cs → flagMatchCore cs = none) ∧
    numMatchCore "1. A.".data = some (1, "A.".data) ∧
    flagMatchCore "1. A.".data = none ∧
    evaluate_format_compliance "Assumptions:\n1. A.\nAnswer: X"
      = ⟨true, "Format is compliant.", true, none⟩ ∧
    (∀ norm : String → String,
        extract_constrained_flags norm "Assumptions:\n1. A.\nAnswer: X" = ([], [])) ∧
    evaluate_total_flags_count [] = ⟨0, true, none⟩ :=
  ⟨flagMatch_none_of_no_paren, by decide, by decide, by decide, fun _ => rfl, rfl⟩

/-- Witness for C10's universally quantified conjunct at a concrete line. -/
theorem C10_witness : flagMatchCore "2. B.".data = none :=
  C10_unparen_numbered_lines.1 "2. B.".data (by decide)

/-- C1 refuted: with `expected = ["a","b"]` and `detected = ["a","b","c"]`
(non-empty), the hallucinated rate is `round(1/3, 2) = 0.33` while
`1 - precision = 1 - 2/3 = 1/3`, so the two differ — the source rounds the
hallucinated rate to two decimals but not the precision. -/
theorem C1_counterexample :
    (["a", "b", "c"] : List String) ≠ [] ∧
    (evaluate_hallucinated_flag_rate ["a", "b"] ["a", "b", "c"]).hallucinated_rate
      ≠ 1 - (evaluate_assumption_precision ["a", "b"] ["a", "b", "c"]).precision_score := by
  refine ⟨by decide, ?_⟩
  have e1 : (evaluate_hallucinated_flag_rate ["a", "b"] ["a", "b", "c"]).hallucinated_rate
      = pyRound2 ((1 : ℚ)/3) := by
    rw [evaluate_hallucinated_flag_rate,
      if_neg (by decide : ¬(["a", "b", "c"] : List String) = [])]
    norm_num [List.filter_cons, List.filter_nil,
      show (["a", "b", "c"] : List String).dedup = ["a", "b", "c"] from by decide,
      (by decide : ¬("c" : String) = "a"), (by decide : ¬("c" : String) = "b")]
  have e2 : (evaluate_assumption_precision ["a", "b"] ["a", "b", "c"]).precision_score
      = (2 : ℚ)/3 := by
    rw [evaluate_assumption_precision,
      if_neg (by decide : ¬(["a", "b", "c"] : List String) = [])]
    norm_num [List.filter_cons, List.filter_nil,
      show (["a", "b", "c"] : List String).dedup = ["a", "b", "c"] from by decide,
      (by decide : ¬("c" : String) = "a"), (by decide : ¬("c" : String) = "b")]
  rw [e1, e2]
  have hf : ⌊((1 : ℚ)/3 * 100)⌋ = 33 := by
    rw [Int.floor_eq_iff]
    norm_num
  rw [pyRound2, pyRoundHalfToEven]
  rw [hf]
  norm_num

/-- C1 (amended): for every pair of lists of normalized flag strings with
`detected_flags` non-empty, the hallucinated rate equals `1 - precision`
rounded to two decimals (`round(1 - precision, 2)`), the rounding being the
one the source applies to the hallucinated rate. -/
theorem C1_rounded_complement (expected_flags detected_flags : List String)
    (h : detected_flags ≠ []) :
    (evaluate_hallucinated_flag_rate expected_flags detected_flags).hallucinated_rate
      = pyRound2 (1 -
          (evaluate_assumption_precision expected_flags detected_flags).precision_score) := by
  rw [evaluate_hallucinated_flag_rate, evaluate_assumption_precision, if_neg h, if_neg h]
  simp only
  congr 1
  have hd : detected_flags.dedup ≠ [] := by
    simpa [List.dedup_eq_nil] using h
  have hn : ((detected_flags.dedup.length : ℚ)) ≠ 0 := by
    have h0 : detected_flags.dedup.length ≠ 0 :=
      fun h0 => hd (List.length_eq_zero.mp h0)
    exact_mod_cast h0
  have hsum := length_filter_add_length_filter_not
    (fun x => decide (x ∈ expected_flags)) detected_flags.dedup
  have hcast :
      ((detected_flags.dedup.filter (fun x => decide (x ∈ expected_flags))).length : ℚ)
        + ((detected_flags.dedup.filter
            (fun x => !decide (x ∈ expected_flags))).length : ℚ)
        = (detected_flags.dedup.length : ℚ) := by
    exact_mod_cast hsum
  simp only [decide_not, List.mem_dedup]
  field_simp
  linarith

/-- Witness for the amended C1 at a concrete non-empty detected list. -/
theorem C1_rounded_complement_witness :
    (evaluate_hallucinated_flag_rate ["x"] ["x", "y"]).hallucinated_rate
      = pyRound2 (1 - (evaluate_assumption_precision ["x"] ["x", "y"]).precision_score) :=
  C1_rounded_complement ["x"] ["x", "y"] (by decide)

/-- C3 refuted: the flag-block line `"1. A (g1) (g2)"`, which has the form
`<index>. <flag text> (<group1>) (<group2>)`, does not match the extraction
pattern at all (group 1 of the regex cannot cross the first `(` and group 2
cannot contain `)`), so the line contributes no (flag, justification) pair —
rather than contributing one pair with the last group as justification. -/
theorem C3_counterexample :
    flagMatchCore "1. A (g1) (g2)".data = none ∧
    extract_constrained_flags id "Assumptions:\n1. A (g1) (g2)\nAnswer: X" = ([], []) := by
  decide

/-- C3 (amended): a flag-block line of the form
`<index>. <flag text> (<group1>) <sep> (<group2>)` — more generally, any line
whose first parenthesized group closes before the end of the line — does not
match the extraction pattern and is skipped: it contributes no
(flag, justification) pair.  Skipping is visible in the extractor loop: a
line inside the block that fails the pattern leaves the extraction state
unchanged. -/
theorem C3_multi_group_skipped :
    (∀ (d f g1 sep g2 : List Char),
        d ≠ [] → (∀ a ∈ d, a.isDigit = true) → '(' ∉ f →
        flagMatchCore
          (d ++ ('.' :: (f ++ ('(' :: (g1 ++ (')' :: (sep ++ ('(' :: (g2 ++ [')'])))))))))
          = none) ∧
    (∀ (norm : String → String) (line : String) (rest : List String),
        flagMatchCore (pyStrip line).data = none →
        pyStartsWith (pyLower (pyStrip line)) "assumptions:" = false →
        pyStartsWith (pyLower (pyStrip line)) "answer:" = false →
        pyStrip line ≠ "" →
        extractGo norm (line :: rest) true = extractGo norm rest true) := by
  constructor
  · intro d f g1 sep g2 hd hdig hf
    obtain ⟨c, d', rfl⟩ := List.exists_cons_of_ne_nil hd
    have hcd : c.isDigit = true := hdig c (by simp)
    have hcs : pyIsSpaceChar c = false := not_space_of_digit c hcd
    have hdall : ∀ a ∈ d', Char.isDigit a = true := fun a ha => hdig a (by simp [ha])
    have hfall : ∀ a ∈ f, (a != '(') = true := by
      intro a ha
      simp only [bne_iff_ne, ne_eq]
      intro he
      exact hf (he ▸ ha)
    simp only [flagMatchCore, List.cons_append]
    rw [List.dropWhile_cons_of_neg (by simp [hcs]),
      List.takeWhile_cons_of_pos (by simp [hcd]),
      List.dropWhile_cons_of_pos (by simp [hcd]),
      takeWhile_append_of_all Char.isDigit d'
        ('.' :: (f ++ ('(' :: (g1 ++ (')' :: (sep ++ ('(' :: (g2 ++ [')']))))))))  hdall,
      dropWhile_append_of_all Char.isDigit d'
        ('.' :: (f ++ ('(' :: (g1 ++ (')' :: (sep ++ ('(' :: (g2 ++ [')']))))))))  hdall,
      List.takeWhile_cons_of_neg (by decide),
      List.dropWhile_cons_of_neg (by decide)]
    simp only [List.append_nil, List.isEmpty_cons, Bool.false_eq_true, if_false]
    rw [takeWhile_append_of_all (fun c => c != '(') f
        ('(' :: (g1 ++ (')' :: (sep ++ ('(' :: (g2 ++ [')'])))))) hfall,
      dropWhile_append_of_all (fun c => c != '(') f
        ('(' :: (g1 ++ (')' :: (sep ++ ('(' :: (g2 ++ [')'])))))) hfall,
      List.takeWhile_cons_of_neg (by decide),
      List.dropWhile_cons_of_neg (by decide)]
    have hr4 : g1 ++ (')' :: (sep ++ ('(' :: (g2 ++ [')']))))
        = (g1 ++ (')' :: (sep ++ ('(' :: g2)))) ++ [')'] := by simp
    have hall : (g1 ++ (')' :: (sep ++ ('(' :: g2)))).all (fun c => c != ')') = false := by
      rw [Bool.eq_false_iff]
      intro hcontra
      have := List.all_eq_true.mp hcontra ')' (by simp)
      simp at this
    rw [hr4]
    split
    · next r4 heq =>
      obtain rfl : r4 = (g1 ++ (')' :: (sep ++ ('(' :: g2)))) ++ [')'] := by
        injection heq with h1 h2
        exact h2.symm
      rw [List.dropLast_concat]
      simp [hall]
    · rfl
  · intro norm line rest hflag hheader hanswer hs
    simp only [extractGo, hheader, Bool.false_eq_true, if_false, if_true, hanswer,
      if_neg hs, hflag]

/-- Witness for the amended C3 at the concrete line `"1. A (g1) (g2)"`. -/
theorem C3_multi_group_skipped_witness :
    flagMatchCore
      (['1'] ++ ('.' :: (['A', ' '] ++ ('(' :: (['g', '1'] ++ (')' :: ([' ']
        ++ ('(' :: (['g', '2'] ++ [')']))))))))) = none :=
  C3_multi_group_skipped.1 ['1'] ['A', ' '] ['g', '1'] [' '] ['g', '2']
    (by decide) (by decide) (by decide)

/-- C5: for every normalizer, response text and non-empty expected list,
coverage (`expected ⊆ detected`) holds iff recall over the same extracted
flags is exactly 1. -/
theorem C5_coverage_iff_full_recall (norm : String → String) (response_text : String)
    (expected_flags : List String) (h : expected_flags ≠ []) :
    (evaluate_coverage_all_flags_before_answering norm response_text
        expected_flags).all_flags_covered_before_answer = true
      ↔ (evaluate_assumption_recall expected_flags
          (extract_constrained_flags norm response_text).1).recall_score = 1 := by
  rw [evaluate_coverage_all_flags_before_answering, evaluate_assumption_recall, if_neg h]
  simp only
  have hne : expected_flags.dedup ≠ [] := by simpa [List.dedup_eq_nil] using h
  have hnq : ((expected_flags.dedup.length : ℚ)) ≠ 0 := by
    have h0 : expected_flags.dedup.length ≠ 0 :=
      fun h0 => hne (List.length_eq_zero.mp h0)
    exact_mod_cast h0
  rw [div_eq_one_iff_eq hnq, Nat.cast_inj]
  constructor
  · intro hall
    rw [List.filter_eq_self.mpr (List.all_eq_true.mp hall)]
  · intro hlen
    exact List.all_eq_true.mpr
      (List.filter_eq_self.mp ((List.filter_sublist _).eq_of_length hlen))

/-- Witness for C5 at a concrete covered response. -/
theorem C5_coverage_iff_full_recall_witness :
    (evaluate_assumption_recall ["a"]
        (extract_constrained_flags id "Assumptions:\n1. a (j)\nAnswer: x").1).recall_score
      = 1 :=
  (C5_coverage_iff_full_recall id "Assumptions:\n1. a (j)\nAnswer: x" ["a"]
    (by decide)).mp (by decide)

/-- C7 refuted as universally stated: in
`"Assumptions:\nfoo\n2. A.\nAnswer: X"` the numbered lines of the block are
`[2]`, which is not sequential starting at 1, yet the returned details string
is the content-before-first-numbered-item diagnostic, which reports no
expected/found numbers. -/
theorem C7_counterexample :
    fcNums "Assumptions:\nfoo\n2. A.\nAnswer: X" = [2] ∧
    evaluate_format_compliance "Assumptions:\nfoo\n2. A.\nAnswer: X"
      = ⟨false, contentDetails "foo", true, none⟩ ∧
    contentDetails "foo" ≠ seqDetails 1 2 := by decide

/-- C7 (amended): provided the response starts with the `"Assumptions:"`
header and the first non-blank line of the assumptions block matches the
numbered-item pattern (so that no content-before-first-numbered-item failure
precedes), a first sequential-numbering violation at position `j` (the
numbers before it being exactly `1..j` and the number found there being
`g ≠ j+1`) makes `evaluate_format_compliance` return `compliant=False` with
the details string reporting expected `j+1` and found `g`; in particular
`"Assumptions:\n1. A.\n3. B.\nAnswer: X"` reports expected 2, got 3. -/
theorem C7_amended :
    (∀ (response_text : String) (j g : Nat),
        fcHeaderOk response_text = true →
        fcHeadNumbered response_text = true →
        (fcNums response_text).take j = List.range' 1 j →
        (fcNums response_text)[j]? = some g →
        g ≠ j + 1 →
        evaluate_format_compliance response_text
          = ⟨false, seqDetails (j + 1) g, true, none⟩) ∧
    evaluate_format_compliance "Assumptions:\n1. A.\n3. B.\nAnswer: X"
      = ⟨false, seqDetails 2 3, true, none⟩ := by
  constructor
  · intro resp j g hok hheadnum htake hget hne
    cases hne2 : fcNonEmpty resp with
    | nil => simp [fcHeaderOk, hne2] at hok
    | cons first r =>
    have hstart : pyStartsWith (pyLower first) "assumptions:" = true := by
      simpa [fcHeaderOk, hne2] using hok
    rcases hfh : fcHeaders resp with ⟨aIdxv, ansIdx⟩
    have hsome : aIdxv.isSome = true := by
      have := findHeaders_fst_isSome (pySplitlines resp) 0 none
        (Or.inr ⟨first, r, by simpa [fcNonEmpty] using hne2, hstart⟩)
      rw [show findHeaders (pySplitlines resp) 0 none = fcHeaders resp from rfl, hfh] at this
      exact this
    obtain ⟨a, rfl⟩ : ∃ a, aIdxv = some a := Option.isSome_iff_exists.mp hsome
    cases hc : fcContent resp with
    | nil => simp [fcHeadNumbered, hc] at hheadnum
    | cons l0 ltail =>
    have hm0ex : (numMatchCore l0.data).isSome = true := by
      simpa [fcHeadNumbered, hc] using hheadnum
    obtain ⟨⟨n0, r0⟩, hm0⟩ := Option.isSome_iff_exists.mp hm0ex
    have hnums : fcNums resp
        = n0 :: ltail.filterMap (fun l => (numMatchCore l.data).map Prod.fst) := by
      rw [fcNums, hc]
      simp [List.filterMap_cons, hm0]
    rw [hnums] at htake hget
    have hchk : checkItems (fcContent resp) false 1 = .error (seqDetails (j + 1) g) := by
      rw [hc]
      simp only [checkItems, hm0]
      cases j with
      | zero =>
        have hg : n0 = g := by simpa using hget
        subst hg
        rw [if_pos (show n0 ≠ 1 by simpa using hne)]
      | succ k =>
        rw [List.take_succ_cons, List.range'_succ] at htake
        injection htake with h1 h2
        subst h1
        rw [if_neg (by simp)]
        have hrec := checkItems_first_violation ltail (1 + 1) k g h2
          (by simpa using hget) (by omega)
        rw [hrec, show k + 1 + 1 = 1 + 1 + k from by omega]
    simp only [evaluate_format_compliance, hne2, hstart, Bool.not_true,
      Bool.false_eq_true, if_false, hfh]
    rw [if_pos (show fcContent resp ≠ [] from by rw [hc]; simp), hchk]
  · decide

/-- Witness for the amended C7 at a concrete gapped response. -/
theorem C7_amended_witness :
    evaluate_format_compliance "Assumptions:\n1. A.\n5. B.\nAnswer: X"
      = ⟨false, seqDetails 2 5, true, none⟩ :=
  C7_amended.1 "Assumptions:\n1. A.\n5. B.\nAnswer: X" 1 5
    (by decide) (by decide) (by decide) (by decide) (by decide)

/-- C9: every metric function — recall, precision, hallucinated flag rate,
coverage, total flags count, format compliance, justification conciseness,
answer conciseness and hedging count — is total over arbitrary Python inputs
(including non-strings and non-lists) and always returns a result record:
either `success=True`, or `success=False` together with an error message
(the text of the caught exception); exceptions never escape the metric
boundary. -/
theorem C9_error_policy :
    (∀ e d : PyVal, wellFormedResult (evaluate_assumption_recall_dyn e d).success
        (evaluate_assumption_recall_dyn e d).error_message) ∧
    (∀ e d : PyVal, wellFormedResult (evaluate_assumption_precision_dyn e d).success
        (evaluate_assumption_precision_dyn e d).error_message) ∧
    (∀ e d : PyVal, wellFormedResult (evaluate_hallucinated_flag_rate_dyn e d).success
        (evaluate_hallucinated_flag_rate_dyn e d).error_message) ∧
    (∀ (norm : String → String) (resp expv : PyVal),
        wellFormedResult (evaluate_coverage_dyn norm resp expv).success
          (evaluate_coverage_dyn norm resp expv).error_message) ∧
    (∀ v : PyVal, wellFormedResult (evaluate_total_flags_count_dyn v).success
        (evaluate_total_flags_count_dyn v).error_message) ∧
    (∀ v : PyVal, wellFormedResult (evaluate_format_compliance_dyn v).success
        (evaluate_format_compliance_dyn v).error_message) ∧
    (∀ (tokCount : String → Nat) (v : PyVal),
        wellFormedResult (evaluate_justification_conciseness_dyn tokCount v).success
          (evaluate_justification_conciseness_dyn tokCount v).error_message) ∧
    (∀ (tokStats : String → Nat × Nat) (v : PyVal),
        wellFormedResult (evaluate_answer_conciseness_dyn tokStats v).success
          (evaluate_answer_conciseness_dyn tokStats v).error_message) ∧
    (∀ v : PyVal, wellFormedResult (evaluate_hedging_count_dyn v).success
        (evaluate_hedging_count_dyn v).error_message) := by
  refine ⟨?_, ?_, ?_, ?_, ?_, ?_, ?_, ?_, ?_⟩
  · intro e d
    unfold evaluate_assumption_recall_dyn
    cases hb : recallBody e d with
    | ok r => exact Or.inl (recallBody_success e d r hb)
    | error m => exact Or.inr ⟨rfl, by simp⟩
  · intro e d
    unfold evaluate_assumption_precision_dyn
    cases hb : precisionBody e d with
    | ok r => exact Or.inl (precisionBody_success e d r hb)
    | error m => exact Or.inr ⟨rfl, by simp⟩
  · intro e d
    unfold evaluate_hallucinated_flag_rate_dyn
    cases hb : hallucinationBody e d with
    | ok r => exact Or.inl (hallucinationBody_success e d r hb)
    | error m => exact Or.inr ⟨rfl, by simp⟩
  · intro norm resp expv
    unfold evaluate_coverage_dyn
    cases hb : coverageBody norm resp expv with
    | ok r => exact Or.inl (coverageBody_success norm resp expv r hb)
    | error m => exact Or.inr ⟨rfl, by simp⟩
  · intro v
    unfold evaluate_total_flags_count_dyn
    cases hb : pyLenVal v with
    | ok n => exact Or.inl rfl
    | error m => exact Or.inr ⟨rfl, by simp⟩
  · intro v
    cases v with
    | vStr s => exact Or.inl (format_compliance_success s)
    | vNone => exact Or.inl rfl
    | vBool b => exact Or.inl rfl
    | vInt n => exact Or.inl rfl
    | vFloat q => exact Or.inl rfl
    | vList xs => exact Or.inl rfl
  · intro tokCount v
    unfold evaluate_justification_conciseness_dyn
    cases hb : justificationBody tokCount v with
    | ok r => exact Or.inl (justificationBody_success tokCount v r hb)
    | error m => exact Or.inr ⟨rfl, by simp⟩
  · intro tokStats v
    unfold evaluate_answer_conciseness_dyn
    cases hb : answerBody tokStats v with
    | ok r => exact Or.inl (answerBody_success tokStats v r hb)
    | error m => exact Or.inr ⟨rfl, by simp⟩
  · intro v
    cases v with
    | vStr s =>
      unfold evaluate_hedging_count_dyn
      by_cases hb : pyStrip s = "" <;> simp [hb, wellFormedResult]
    | vNone => exact Or.inl rfl
    | vBool b => exact Or.inl rfl
    | vInt n => exact Or.inl rfl
    | vFloat q => exact Or.inl rfl
    | vList xs => exact Or.inl rfl
